import Mathlib

/-!
# k8s-node-decorator: a shallow embedding of `main.go`

The program keeps the labels of a Kubernetes node object in step with the
metadata of the Linode instance behind it.  The development below embeds
`GetCurrentNode`, `UpdateNodeLabels` and `main` (start-up sequence plus one
iteration of the event loop) and proves properties of them.

Conventions of the embedding:

* a Go `map[string]string` is `Option (List (String × String))`: `none` is the
  nil map, `some es` an initialised map whose entries are kept in an
  association list read by first match;
* a Go procedure acting on mutable state returns an `Outcome`: the state at the
  point where it returned or panicked;
* calls that leave the process (logging, environment, cluster store, metadata
  service, watcher) are recorded, in order, in a trace of `Effect`s;
* Go `int` and `time.Duration` are `Int`s wrapped to 64 bits explicitly.
-/

set_option autoImplicit false

namespace NodeDecorator

/-! ## Go values used by the program -/

/-- Entries of an initialised Go map, in insertion order. -/
abbrev Entries := List (String × String)

/-- Value stored under key `k`, if any (first match). -/
def Entries.lookup : Entries → String → Option String
  | [], _ => none
  | (k', v) :: es, k => if k' = k then some v else Entries.lookup es k

/-- Entries after `m[k] = v`: the value of an existing key is overwritten in
place, a new key is added at the end. -/
def Entries.set : Entries → String → String → Entries
  | [], k, v => [(k, v)]
  | (k', v') :: es, k, v => if k' = k then (k', v) :: es else (k', v') :: Entries.set es k v

/-- Go `map[string]string`: `none` is the nil map. -/
abbrev GoMap := Option Entries

/-- Go `m[k]` with the comma-ok result: a nil map reads as empty. -/
def GoMap.index (m : GoMap) (k : String) : Option String :=
  match m with
  | none => none
  | some es => es.lookup k

/-- Run-time panics the embedded code can raise. -/
inductive Panic where
  /-- Go run-time error "assignment to entry in nil map". -/
  | assignNilMap
  /-- Go run-time error "invalid memory address or nil pointer dereference". -/
  | nilDereference
  /-- An explicit `panic(v)` with the printed value. -/
  | explicit (msg : String)
  /-- Modelled from the spec: the configuration error of a watcher given a
  non-positive interval (the watcher is in the imported go-metadata package). -/
  | nonPositiveInterval
  deriving DecidableEq, Repr

/-- Go `error` values built by the program or handed to it. -/
inductive GoError where
  /-- The value of `errors.New(msg)`, also used for errors
  coming from collaborators, known by their message. -/
  | new (msg : String)
  /-- The value of `fmt.Errorf(pre ++ "%w", inner)`. -/
  | wrap (pre : String) (inner : GoError)
  deriving DecidableEq, Repr

/-- Go `err.Error()`. -/
def GoError.Error : GoError → String
  | .new msg => msg
  | .wrap pre inner => pre ++ inner.Error

/-- Go `errors.Unwrap(err)`. -/
def GoError.Unwrap : GoError → Option GoError
  | .new _ => none
  | .wrap _ inner => some inner

/-- Width of Go `int` on the 64-bit platforms the agent is built for
(`strconv.IntSize`). -/
def IntSize : Nat := 64

/-- Two-complement wrap of an integer to `w` bits, signed. -/
def wrapSigned (w : Nat) (x : Int) : Int :=
  (x + 2 ^ (w - 1)) % 2 ^ w - 2 ^ (w - 1)

/-- Go `strconv.Itoa`: the decimal digits of `i`, after a minus sign when `i` is
negative. -/
def Itoa (i : Int) : String :=
  if i < 0 then "-" ++ Nat.repr i.natAbs else Nat.repr i.natAbs

/-- Modelled from the spec: the `metadata.InstanceData` struct is declared in the
imported go-metadata package; the fields are those of the spec's Snapshot (label,
id, region, type, host identifier), which are also the only ones `main.go` reads
(`Type_` stands for the Go field `Type`). -/
structure InstanceData where
  Label : String
  ID : Int
  Region : String
  Type_ : String
  HostUUID : String
  deriving DecidableEq, Repr

/-- Modelled from the spec: `corev1.Node` is declared in the imported Kubernetes API
package; the spec's NodeRef carries a mutable label mapping (string to string),
which in Go is a `map[string]string` field and so may be nil. -/
structure Node where
  Name : String
  Labels : GoMap
  deriving DecidableEq, Repr

/-! ## Effects -/

/-- Arguments of a formatted log line, kept as values. -/
inductive LogArg where
  | str (s : String)
  | data (d : InstanceData)
  | ptr (d : Option InstanceData)
  | duration (ns : Int)
  | err (e : GoError)
  deriving DecidableEq, Repr

/-- Calls that leave the process, in the order the program makes them. -/
inductive Effect where
  /-- The call `klog.Infof(format, args...)`. -/
  | infof (format : String) (args : List LogArg)
  /-- The call `klog.Errorf(format, args...)`. -/
  | errorf (format : String) (args : List LogArg)
  /-- The call `os.Getenv(name)`. -/
  | getenv (name : String)
  /-- The call `rest.InClusterConfig()`. -/
  | inClusterConfig
  /-- The call `kubernetes.NewForConfig(config)`. -/
  | newForConfig
  /-- Cluster store read: `clientset.CoreV1().Nodes().Get(ctx, name, opts)`. -/
  | nodesGet (name : String)
  /-- Cluster store write: `clientset.CoreV1().Nodes().Update(ctx, node, opts)`,
  the save operation of the node store. -/
  | nodesUpdate (node : Node)
  /-- The call `metadata.NewClient(ctx, ClientWithManagedToken())`. -/
  | newClient
  /-- Metadata fetch: `client.GetInstance(ctx)`. -/
  | getInstance
  /-- The call `client.NewInstanceWatcher(WatcherWithInterval(interval))`. -/
  | newInstanceWatcher (interval : Int)
  /-- The statement `go instanceWatcher.Start(ctx)`. -/
  | goStart
  deriving DecidableEq, Repr

/-- Whether an effect is a save of the node to the cluster store. -/
def Effect.isSave : Effect → Bool
  | .nodesUpdate _ => true
  | _ => false

/-- The saves among a trace of effects. -/
def saves (t : List Effect) : List Effect := t.filter Effect.isSave

/-! ## `UpdateNodeLabels` -/

/-- Mutable state `UpdateNodeLabels` acts on: the node behind the pointer and
the effects issued so far. -/
structure World where
  node : Node
  trace : List Effect
  deriving DecidableEq, Repr

/-- How a procedure left the state. -/
inductive Outcome where
  | returned (w : World)
  | panicked (w : World) (p : Panic)
  deriving DecidableEq, Repr

/-- State at the point the procedure returned or panicked. -/
def Outcome.world : Outcome → World
  | .returned w => w
  | .panicked w _ => w

/-- Whether the procedure returned normally. -/
def Outcome.isReturned : Outcome → Bool
  | .returned _ => true
  | .panicked _ _ => false

/-- Sequencing of statements: a panic stops the procedure. -/
def Outcome.andThen (o : Outcome) (f : World → Outcome) : Outcome :=
  match o with
  | .returned w => f w
  | .panicked w p => .panicked w p

/-- Statement `node.Labels[k] = v`. -/
def assignLabel (k v : String) (w : World) : Outcome :=
  match w.node.Labels with
  | none => .panicked w .assignNilMap
  | some es => .returned { w with node := { w.node with Labels := some (es.set k v) } }

/-- Statement `klog.Infof(format, args...)`. -/
def logInfof (format : String) (args : List LogArg) (w : World) : World :=
  { w with trace := w.trace ++ [.infof format args] }

/-- Embedding of `func UpdateNodeLabels(node *corev1.Node, instanceData metadata.InstanceData)`. -/
def UpdateNodeLabels (w : World) (instanceData : InstanceData) : Outcome :=
  let w := logInfof "Updating node labels with Linode instance data: %v" [.data instanceData] w
  (((((Outcome.returned w).andThen
    (assignLabel "linode_label" instanceData.Label)).andThen
    (assignLabel "linode_id" (Itoa instanceData.ID))).andThen
    (assignLabel "linode_region" instanceData.Region)).andThen
    (assignLabel "linode_type" instanceData.Type_)).andThen
    (assignLabel "linode_host" instanceData.HostUUID)

/-- Entries after the five assignments of `UpdateNodeLabels`. -/
def schemaEntries (es : Entries) (s : InstanceData) : Entries :=
  ((((es.set "linode_label" s.Label).set "linode_id" (Itoa s.ID)).set
    "linode_region" s.Region).set "linode_type" s.Type_).set "linode_host" s.HostUUID

/-- The five label keys `UpdateNodeLabels` assigns, in the order of the
assignments. -/
def schemaKeys : List String :=
  ["linode_label", "linode_id", "linode_region", "linode_type", "linode_host"]

/-- Snapshot of the concrete scenario of the specification. -/
def exampleSnapshot : InstanceData :=
  { Label := "my-node", ID := 123, Region := "us-east", Type_ := "g6-standard-2", HostUUID := "abc" }

/-- World whose node has an initialised, empty label map and no effect issued. -/
def emptyWorld : World := { node := { Name := "node-1", Labels := some [] }, trace := [] }

/-- World whose node carries two labels, one of them in the schema. -/
def labelledWorld : World :=
  { node := { Name := "node-1",
              Labels := some [("kubernetes.io/hostname", "node-1"), ("linode_region", "eu-west")] },
    trace := [] }

/-- World whose node object carries no label map at all. -/
def nilWorld : World := { node := { Name := "node-1", Labels := none }, trace := [] }

/-! ## `GetCurrentNode` -/

/-- Embedding of `func GetCurrentNode(clientset kubernetes.Clientset) (*corev1.Node, error)`.
`getenv` answers `os.Getenv` (the empty string for an unset variable), `nodesGet`
answers the cluster store's lookup by name; the effects issued are appended to `t`.
The variable read is `NODE_NAME`; the text of the first error names `POD_NAME`, as
the source does. -/
def GetCurrentNode (getenv : String → String) (nodesGet : String → Except GoError Node)
    (t : List Effect) : Except GoError Node × List Effect :=
  let nodeName := getenv "NODE_NAME"
  let t := t ++ [.getenv "NODE_NAME"]
  if nodeName = "" then
    (.error (.new "Environment variable POD_NAME is not set"), t)
  else
    let t := t ++ [.nodesGet nodeName]
    match nodesGet nodeName with
    | .error err => (.error (.wrap "failed to get node: " err), t)
    | .ok node => (.ok node, t)

/-- The cluster store reads among a trace of effects. -/
def storeReads (t : List Effect) : List Effect :=
  t.filter (fun e => match e with
    | .nodesGet _ => true
    | _ => false)

/-! ## `main` -/

/-- Go `time.Second`, in nanoseconds. -/
def Second : Int := 1000000000

/-- The flag package accepts `n` for an `int` flag: it fits a Go `int`. -/
def flagAccepts (n : Int) : Prop :=
  -(2 ^ (IntSize - 1)) ≤ n ∧ n < 2 ^ (IntSize - 1)

instance (n : Int) : Decidable (flagAccepts n) := by
  unfold flagAccepts
  infer_instance

/-- Expression `time.Duration(*pollIntervalSeconds) * time.Second`: conversion of the
`int` to `int64`, then a wrapping 64-bit multiplication. -/
def pollInterval (pollIntervalSeconds : Int) : Int :=
  wrapSigned 64 (wrapSigned 64 pollIntervalSeconds * Second)

/-- What the collaborators of `main` answer during start-up. -/
structure Deps where
  /-- Value of the `poll-interval` flag after `flag.Parse()` (default 60). -/
  pollIntervalSeconds : Int
  /-- The package variable `version`. -/
  version : String
  /-- Answers of `os.Getenv`. -/
  getenv : String → String
  /-- Error result of `rest.InClusterConfig()`. -/
  inClusterConfig : Option GoError
  /-- Error result of `kubernetes.NewForConfig(config)`. -/
  newForConfig : Option GoError
  /-- Cluster store lookup by node name. -/
  nodesGet : String → Except GoError Node
  /-- Error result of `metadata.NewClient(...)`. -/
  newClient : Option GoError
  /-- Both results of the bootstrap `client.GetInstance(ctx)`: the pointer (nil as
  `none`) and the error. -/
  getInstance : Option InstanceData × Option GoError

/-- Variables of `main` once the watcher goroutine is started. -/
structure MainState where
  /-- The node behind `node` and the effects issued so far. -/
  world : World
  /-- The variable `instanceData`, assigned once by the bootstrap fetch. -/
  instanceData : Option InstanceData
  /-- The variable `interval`. -/
  interval : Int
  deriving DecidableEq, Repr

/-- Result of the start-up part of `main` (lines up to `go instanceWatcher.Start`). -/
inductive Startup where
  /-- The process aborted with a panic after issuing the effects `t`. -/
  | panicked (p : Panic) (t : List Effect)
  /-- The start-up reached the event loop. -/
  | running (st : MainState)
  deriving DecidableEq, Repr

/-- Embedding of `main` from its first statement to `go instanceWatcher.Start(...)`. -/
def mainStartup (d : Deps) : Startup :=
  let interval := pollInterval d.pollIntervalSeconds
  let t : List Effect :=
    [.infof "Starting Linode Kubernetes Node Decorator: version %s" [.str d.version],
     .infof "The poll interval is set to %v seconds" [.duration interval],
     .inClusterConfig]
  match d.inClusterConfig with
  | some err => .panicked (.explicit err.Error) t
  | none =>
    let t := t ++ [.newForConfig]
    match d.newForConfig with
    | some err => .panicked (.explicit err.Error) t
    | none =>
      match GetCurrentNode d.getenv d.nodesGet t with
      | (.error err, t) => .panicked (.explicit err.Error) t
      | (.ok node, t) =>
        let t := t ++ [.newClient]
        match d.newClient with
        | some err => .panicked (.explicit err.Error) t
        | none =>
          let t := t ++ [.getInstance]
          let instanceData := d.getInstance.1
          let t := match d.getInstance.2 with
            | some err =>
              t ++ [.errorf "Failed to get the initial instance data: %s" [.str err.Error]]
            | none => t
          let o := match instanceData with
            | some data => UpdateNodeLabels { node := node, trace := t } data
            | none => .returned { node := node, trace := t }
          match o with
          | .panicked w p => .panicked p w.trace
          | .returned w =>
            .running
              { world := { w with trace := w.trace ++ [.newInstanceWatcher interval, .goStart] },
                instanceData := instanceData,
                interval := interval }

/-- Messages `main` receives from the watcher: a `*InstanceData` on `Updates` (nil as
`none`) or an error on `Errors`. -/
inductive WatcherEvent where
  | update (data : Option InstanceData)
  | error (err : GoError)
  deriving DecidableEq, Repr

/-- Result of one iteration of the event loop. -/
inductive LoopOutcome where
  | continues (st : MainState)
  | panicked (st : MainState) (p : Panic)
  deriving DecidableEq, Repr

/-- Variables of `main` after the iteration (at the panic, if it panicked). -/
def LoopOutcome.state : LoopOutcome → MainState
  | .continues st => st
  | .panicked st _ => st

/-- Embedding of one iteration of the `for { select { ... } }` loop of `main`, for
the event the `select` received. The guard tests the variable `instanceData` of the
bootstrap; the body logs the pointer `data` and dereferences it, which panics on a nil
pointer before `UpdateNodeLabels` is entered. -/
def loopIteration (st : MainState) (ev : WatcherEvent) : LoopOutcome :=
  match ev with
  | .update data =>
    if st.instanceData ≠ none then
      let w := logInfof "Change to instance detected.\nNew data: %v\n" [.ptr data] st.world
      match data with
      | none => .panicked { st with world := w } .nilDereference
      | some snapshot =>
        match UpdateNodeLabels w snapshot with
        | .panicked w p => .panicked { st with world := w } p
        | .returned w => .continues { st with world := logInfof "For loop?" [] w }
    else
      .continues { st with world := logInfof "For loop?" [] st.world }
  | .error err =>
    let w := logInfof "Got error from instance watcher: %s" [.err err] st.world
    .continues { st with world := logInfof "For loop?" [] w }

/-- Start-up collaborators that all succeed: node `node-1` with an initialised, empty
label map, and the bootstrap fetch answering `exampleSnapshot`. -/
def healthyDeps : Deps :=
  { pollIntervalSeconds := 60
    version := "v0"
    getenv := fun name => if name = "NODE_NAME" then "node-1" else ""
    inClusterConfig := none
    newForConfig := none
    nodesGet := fun name =>
      if name = "node-1" then .ok { Name := "node-1", Labels := some [] }
      else .error (.new "not found")
    newClient := none
    getInstance := (some exampleSnapshot, none) }

/-- The collaborators of `healthyDeps`, with a bootstrap fetch that fails. -/
def failedBootstrapDeps : Deps :=
  { healthyDeps with getInstance := (none, some (.new "connection refused")) }

/-- The collaborators of `healthyDeps`, with the flag `-poll-interval=0`. -/
def zeroIntervalDeps : Deps :=
  { healthyDeps with pollIntervalSeconds := 0 }

/-- The collaborators of `healthyDeps`, with the flag `-poll-interval=-9223372037`. -/
def wrappedIntervalDeps : Deps :=
  { healthyDeps with pollIntervalSeconds := -9223372037 }

/-- The collaborators of `healthyDeps`, with the flag `-poll-interval=9223372037`. -/
def hugeIntervalDeps : Deps :=
  { healthyDeps with pollIntervalSeconds := 9223372037 }

/-! ## The instance watcher -/

/-- Modelled from the spec: the event the watcher pushes on one of its two channels
(the watcher is in the imported go-metadata package): `Data(Snapshot)` or `Fault(error)`. -/
inductive Event where
  | Data (s : InstanceData)
  | Fault (err : GoError)
  deriving DecidableEq, Repr

/-- Modelled from the spec: the state of the InstanceWatcher's polling loop, which
lives in the imported go-metadata package: the last-known-good snapshot, absent
before the first successful fetch. -/
structure WatcherState where
  lastKnownGood : Option InstanceData
  deriving DecidableEq, Repr

/-- Modelled from the spec: one tick of `InstanceWatcher.Start` (the watcher is in the
imported go-metadata package, `main.go` only constructs and starts it). Section 4.1:
on a fetch error push a Fault event and leave last-known-good alone; on success
compare the new snapshot to last-known-good, an absent one counting as different; if
different push a Data event and update last-known-good; if identical emit nothing. -/
def watcherTick (st : WatcherState) (fetch : Except GoError InstanceData) :
    WatcherState × List Event :=
  match fetch with
  | .error err => (st, [.Fault err])
  | .ok s =>
    if st.lastKnownGood = some s then (st, [])
    else ({ lastKnownGood := some s }, [.Data s])

/-- Modelled from the spec: the watcher run over a finite sequence of fetch results,
from a given state; returns the final state and the events of each tick. -/
def watcherRun (st : WatcherState) : List (Except GoError InstanceData) →
    WatcherState × List (List Event)
  | [] => (st, [])
  | r :: rs =>
    let (st1, evs) := watcherTick st r
    let (st2, rest) := watcherRun st1 rs
    (st2, evs :: rest)

/-- Initial state of a freshly constructed watcher. -/
def WatcherState.init : WatcherState := { lastKnownGood := none }

/-- Modelled from the spec: construction and start of the InstanceWatcher, which is in
the imported go-metadata package. Section 4.1: construction takes an interval greater
than zero; a non-positive interval is a configuration error and fails fast before the
loop starts. With a positive interval the polling loop starts from the fresh state. -/
def watcherLaunch (interval : Int) : Except Panic WatcherState :=
  if interval ≤ 0 then .error .nonPositiveInterval else .ok WatcherState.init

/-- Start-up of the process: `main` up to `go instanceWatcher.Start(...)`, followed by
the launch of the watcher it constructed; a panic of the watcher aborts the process,
as an unrecovered panic in any goroutine does. -/
def processStartup (d : Deps) : Startup :=
  match mainStartup d with
  | .panicked p t => .panicked p t
  | .running st =>
    match watcherLaunch st.interval with
    | .error p => .panicked p st.world.trace
    | .ok _ => .running st

/-- Whether a tick pushed a Data event. -/
def emitsData (evs : List Event) : Bool :=
  evs.any (fun e => match e with
    | .Data _ => true
    | .Fault _ => false)

/-- The most recent successfully fetched snapshot of a sequence of fetch results, in
the words of the specification: failures are skipped. -/
def lastSuccess : List (Except GoError InstanceData) → Option InstanceData
  | [] => none
  | r :: rs =>
    match lastSuccess rs with
    | some s => some s
    | none =>
      match r with
      | .ok s => some s
      | .error _ => none

/-- Fetch results of ticks 1 to 3 of the scenario: the same snapshot three times. -/
def scenarioSame : List (Except GoError InstanceData) :=
  [.ok exampleSnapshot, .ok exampleSnapshot, .ok exampleSnapshot]

/-- Fetch result of tick 4 of the scenario: the snapshot with a changed region. -/
def scenarioChange : Except GoError InstanceData :=
  .ok { exampleSnapshot with Region := "eu-west" }

/-- Fetch results in which tick 2 fails and the other ticks return one snapshot. -/
def faultyFetches : List (Except GoError InstanceData) :=
  [.ok exampleSnapshot, .error (.new "timeout"), .ok exampleSnapshot, .ok exampleSnapshot]

/-- Effects `main` has issued when the bootstrap fetch has been handled, on the path
where the configuration, the client set, the node lookup and the metadata client all
succeed. -/
def bootstrapTrace (d : Deps) : List Effect :=
  [.infof "Starting Linode Kubernetes Node Decorator: version %s" [.str d.version],
   .infof "The poll interval is set to %v seconds" [.duration (pollInterval d.pollIntervalSeconds)],
   .inClusterConfig, .newForConfig, .getenv "NODE_NAME", .nodesGet (d.getenv "NODE_NAME"),
   .newClient, .getInstance] ++
  (match d.getInstance.2 with
    | some err => [.errorf "Failed to get the initial instance data: %s" [.str err.Error]]
    | none => [])

/-- Environment in which `NODE_NAME` is not set. -/
def unsetEnv : String → String := fun _ => ""

/-! ## Lemmas on map entries -/

theorem Entries.lookup_set_self (es : Entries) (k v : String) :
    (es.set k v).lookup k = some v := by
  induction es with
  | nil => simp [Entries.set, Entries.lookup]
  | cons e es ih =>
    obtain ⟨k', v'⟩ := e
    by_cases h : k' = k
    · simp [Entries.set, Entries.lookup, h]
    · simp [Entries.set, Entries.lookup, h, ih]

theorem Entries.lookup_set_other (es : Entries) (k v k0 : String) (hne : k ≠ k0) :
    (es.set k v).lookup k0 = es.lookup k0 := by
  induction es with
  | nil => simp [Entries.set, Entries.lookup, hne]
  | cons e es ih =>
    obtain ⟨k', v'⟩ := e
    by_cases h : k' = k
    · subst h
      simp [Entries.set, Entries.lookup, hne]
    · by_cases h0 : k' = k0
      · subst h0
        simp [Entries.set, Entries.lookup, h]
      · simp [Entries.set, Entries.lookup, h, h0, ih]

theorem Entries.set_eq_self (es : Entries) (k v : String) (h : es.lookup k = some v) :
    es.set k v = es := by
  induction es with
  | nil => simp [Entries.lookup] at h
  | cons e es ih =>
    obtain ⟨k', v'⟩ := e
    by_cases hk : k' = k
    · simp [Entries.lookup, hk] at h
      simp [Entries.set, hk, h]
    · simp [Entries.lookup, hk] at h
      simp [Entries.set, hk, ih h]

theorem UpdateNodeLabels_of_some (w : World) (s : InstanceData) (es : Entries)
    (h : w.node.Labels = some es) :
    UpdateNodeLabels w s = .returned
      { node := { Name := w.node.Name, Labels := some (schemaEntries es s) },
        trace := w.trace ++
          [.infof "Updating node labels with Linode instance data: %v" [.data s]] } := by
  obtain ⟨⟨name, labels⟩, trace⟩ := w
  simp only at h
  subst h
  rfl

theorem UpdateNodeLabels_of_none (w : World) (s : InstanceData) (h : w.node.Labels = none) :
    UpdateNodeLabels w s = .panicked
      { node := w.node,
        trace := w.trace ++
          [.infof "Updating node labels with Linode instance data: %v" [.data s]] }
      .assignNilMap := by
  obtain ⟨⟨name, labels⟩, trace⟩ := w
  simp only at h
  subst h
  rfl

theorem schemaEntries_lookup_other (es : Entries) (s : InstanceData) (k : String)
    (hk : k ∉ schemaKeys) : (schemaEntries es s).lookup k = es.lookup k := by
  simp only [schemaKeys, List.mem_cons, List.mem_singleton, List.not_mem_nil, or_false,
    not_or] at hk
  obtain ⟨h1, h2, h3, h4, h5⟩ := hk
  unfold schemaEntries
  rw [Entries.lookup_set_other _ _ _ _ (Ne.symm h5), Entries.lookup_set_other _ _ _ _ (Ne.symm h4),
    Entries.lookup_set_other _ _ _ _ (Ne.symm h3), Entries.lookup_set_other _ _ _ _ (Ne.symm h2),
    Entries.lookup_set_other _ _ _ _ (Ne.symm h1)]

theorem schemaEntries_lookup_schema (es : Entries) (s : InstanceData) :
    (schemaEntries es s).lookup "linode_label" = some s.Label ∧
    (schemaEntries es s).lookup "linode_id" = some (Itoa s.ID) ∧
    (schemaEntries es s).lookup "linode_region" = some s.Region ∧
    (schemaEntries es s).lookup "linode_type" = some s.Type_ ∧
    (schemaEntries es s).lookup "linode_host" = some s.HostUUID := by
  unfold schemaEntries
  refine ⟨?_, ?_, ?_, ?_, ?_⟩
  · rw [Entries.lookup_set_other _ _ _ _ (by decide), Entries.lookup_set_other _ _ _ _ (by decide),
      Entries.lookup_set_other _ _ _ _ (by decide), Entries.lookup_set_other _ _ _ _ (by decide),
      Entries.lookup_set_self]
  · rw [Entries.lookup_set_other _ _ _ _ (by decide), Entries.lookup_set_other _ _ _ _ (by decide),
      Entries.lookup_set_other _ _ _ _ (by decide), Entries.lookup_set_self]
  · rw [Entries.lookup_set_other _ _ _ _ (by decide), Entries.lookup_set_other _ _ _ _ (by decide),
      Entries.lookup_set_self]
  · rw [Entries.lookup_set_other _ _ _ _ (by decide), Entries.lookup_set_self]
  · rw [Entries.lookup_set_self]

theorem schemaEntries_idem (es : Entries) (s : InstanceData) :
    schemaEntries (schemaEntries es s) s = schemaEntries es s := by
  obtain ⟨h1, h2, h3, h4, h5⟩ := schemaEntries_lookup_schema es s
  have e1 := Entries.set_eq_self _ _ _ h1
  have e2 := Entries.set_eq_self _ _ _ h2
  have e3 := Entries.set_eq_self _ _ _ h3
  have e4 := Entries.set_eq_self _ _ _ h4
  have e5 := Entries.set_eq_self _ _ _ h5
  generalize schemaEntries es s = fs at e1 e2 e3 e4 e5 ⊢
  unfold schemaEntries
  rw [e1, e2, e3, e4, e5]

/-! ## Properties of `UpdateNodeLabels` -/

/-- C1: for every snapshot `s` and every node whose label mapping is initialised,
`UpdateNodeLabels` returns and the mapping then holds `linode_label = s.Label`,
`linode_id` = the decimal string of `s.ID`, `linode_region = s.Region`,
`linode_type = s.Type` and `linode_host = s.HostUUID`, whatever the mapping held
before. -/
theorem UpdateNodeLabels_sets_schema (w : World) (s : InstanceData)
    (h : w.node.Labels ≠ none) :
    (UpdateNodeLabels w s).isReturned = true ∧
    (UpdateNodeLabels w s).world.node.Labels.index "linode_label" = some s.Label ∧
    (UpdateNodeLabels w s).world.node.Labels.index "linode_id" = some (Itoa s.ID) ∧
    (UpdateNodeLabels w s).world.node.Labels.index "linode_region" = some s.Region ∧
    (UpdateNodeLabels w s).world.node.Labels.index "linode_type" = some s.Type_ ∧
    (UpdateNodeLabels w s).world.node.Labels.index "linode_host" = some s.HostUUID := by
  obtain ⟨es, hes⟩ := Option.ne_none_iff_exists'.mp h
  rw [UpdateNodeLabels_of_some w s es hes]
  exact ⟨rfl, schemaEntries_lookup_schema es s⟩

/-- Witness of C1: the scenario snapshot (id 123) applied to an empty mapping yields
exactly the five schema entries, with `linode_id = "123"`; and applied to a mapping
that already holds `linode_region = "eu-west"` it overwrites that value. -/
theorem UpdateNodeLabels_sets_schema_witness :
    (UpdateNodeLabels emptyWorld exampleSnapshot).world.node.Labels =
      some [("linode_label", "my-node"), ("linode_id", "123"), ("linode_region", "us-east"),
        ("linode_type", "g6-standard-2"), ("linode_host", "abc")] ∧
    (UpdateNodeLabels labelledWorld exampleSnapshot).world.node.Labels.index "linode_region" =
      some "us-east" ∧
    (emptyWorld.node.Labels ≠ none ∧
      (UpdateNodeLabels emptyWorld exampleSnapshot).isReturned = true ∧
      (UpdateNodeLabels emptyWorld exampleSnapshot).world.node.Labels.index "linode_label" =
        some exampleSnapshot.Label ∧
      (UpdateNodeLabels emptyWorld exampleSnapshot).world.node.Labels.index "linode_id" =
        some (Itoa exampleSnapshot.ID) ∧
      (UpdateNodeLabels emptyWorld exampleSnapshot).world.node.Labels.index "linode_region" =
        some exampleSnapshot.Region ∧
      (UpdateNodeLabels emptyWorld exampleSnapshot).world.node.Labels.index "linode_type" =
        some exampleSnapshot.Type_ ∧
      (UpdateNodeLabels emptyWorld exampleSnapshot).world.node.Labels.index "linode_host" =
        some exampleSnapshot.HostUUID) :=
  ⟨by decide, by decide, by decide,
    UpdateNodeLabels_sets_schema emptyWorld exampleSnapshot (by decide)⟩

/-- C2: `UpdateNodeLabels` never removes or alters a label outside its schema: for
every node, snapshot and key `k` other than the five schema keys, `k` is present with
value `v` after the call iff it was before; and when the call returns, the keys
present afterwards are the old keys plus the five schema keys. -/
theorem UpdateNodeLabels_frame (w : World) (s : InstanceData) :
    (∀ k v, k ∉ schemaKeys →
      ((UpdateNodeLabels w s).world.node.Labels.index k = some v ↔
        w.node.Labels.index k = some v)) ∧
    ((UpdateNodeLabels w s).isReturned = true →
      ∀ k, ((UpdateNodeLabels w s).world.node.Labels.index k).isSome = true ↔
        ((w.node.Labels.index k).isSome = true ∨ k ∈ schemaKeys)) := by
  cases hl : w.node.Labels with
  | none =>
    rw [UpdateNodeLabels_of_none w s hl]
    refine ⟨fun k v _ => ?_, fun hret => ?_⟩
    · simp [Outcome.world, hl]
    · simp [Outcome.isReturned] at hret
  | some es =>
    rw [UpdateNodeLabels_of_some w s es hl]
    refine ⟨fun k v hk => ?_, fun _ k => ?_⟩
    · simp only [Outcome.world, GoMap.index]
      rw [schemaEntries_lookup_other es s k hk]
    · simp only [Outcome.world, GoMap.index]
      by_cases hk : k ∈ schemaKeys
      · obtain ⟨h1, h2, h3, h4, h5⟩ := schemaEntries_lookup_schema es s
        simp only [hk, or_true, iff_true]
        simp only [schemaKeys, List.mem_cons, List.mem_singleton, List.not_mem_nil,
          or_false] at hk
        rcases hk with rfl | rfl | rfl | rfl | rfl
        · rw [h1]; rfl
        · rw [h2]; rfl
        · rw [h3]; rfl
        · rw [h4]; rfl
        · rw [h5]; rfl
      · rw [schemaEntries_lookup_other es s k hk]
        simp [hk]

/-- Witness of C2: on a node labelled `kubernetes.io/hostname = node-1` and
`linode_region = eu-west`, the unrelated label is still there after the call, and the
keys afterwards are the old ones plus the schema. -/
theorem UpdateNodeLabels_frame_witness :
    "kubernetes.io/hostname" ∉ schemaKeys ∧
    (UpdateNodeLabels labelledWorld exampleSnapshot).world.node.Labels.index
      "kubernetes.io/hostname" = some "node-1" ∧
    (UpdateNodeLabels labelledWorld exampleSnapshot).isReturned = true ∧
    (UpdateNodeLabels labelledWorld exampleSnapshot).world.node.Labels =
      some [("kubernetes.io/hostname", "node-1"), ("linode_region", "us-east"),
        ("linode_label", "my-node"), ("linode_id", "123"), ("linode_type", "g6-standard-2"),
        ("linode_host", "abc")] ∧
    (∀ k, ((UpdateNodeLabels labelledWorld exampleSnapshot).world.node.Labels.index k).isSome
        = true ↔ ((labelledWorld.node.Labels.index k).isSome = true ∨ k ∈ schemaKeys)) :=
  ⟨by decide,
    ((UpdateNodeLabels_frame labelledWorld exampleSnapshot).1 "kubernetes.io/hostname" "node-1"
      (by decide)).mpr (by decide),
    by decide, by decide,
    (UpdateNodeLabels_frame labelledWorld exampleSnapshot).2 (by decide)⟩

/-- C5: `UpdateNodeLabels` is idempotent on label state: on a node with an initialised
label mapping, applying a snapshot once returns, applying it a second time returns
too, and the node (name and label mapping) after the second application is the one
after the first. -/
theorem UpdateNodeLabels_idempotent (w : World) (s : InstanceData)
    (h : w.node.Labels ≠ none) :
    ∃ w1 w2, UpdateNodeLabels w s = .returned w1 ∧ UpdateNodeLabels w1 s = .returned w2 ∧
      w2.node = w1.node := by
  obtain ⟨es, hes⟩ := Option.ne_none_iff_exists'.mp h
  refine ⟨_, _, UpdateNodeLabels_of_some w s es hes,
    UpdateNodeLabels_of_some _ s (schemaEntries es s) rfl, ?_⟩
  simp [schemaEntries_idem]

/-- Witness of C5: on the labelled node the scenario snapshot applied twice gives the
label mapping it gives applied once. -/
theorem UpdateNodeLabels_idempotent_witness :
    labelledWorld.node.Labels ≠ none ∧
    (UpdateNodeLabels (UpdateNodeLabels labelledWorld exampleSnapshot).world
      exampleSnapshot).world.node =
      (UpdateNodeLabels labelledWorld exampleSnapshot).world.node ∧
    ∃ w1 w2, UpdateNodeLabels labelledWorld exampleSnapshot = .returned w1 ∧
      UpdateNodeLabels w1 exampleSnapshot = .returned w2 ∧ w2.node = w1.node :=
  ⟨by decide, by decide, UpdateNodeLabels_idempotent labelledWorld exampleSnapshot (by decide)⟩

/-- C10: `UpdateNodeLabels` completes without a run-time failure iff the label
mapping of the node is initialised: for every snapshot it returns on a non-nil
(possibly empty) map; on a nil map it panics with "assignment to entry in nil map",
the node left as it was (no label set), only the log line issued. -/
theorem UpdateNodeLabels_returns_iff (w : World) (s : InstanceData) :
    ((UpdateNodeLabels w s).isReturned = true ↔ w.node.Labels ≠ none) ∧
    (w.node.Labels = none →
      UpdateNodeLabels w s = .panicked
        { node := w.node,
          trace := w.trace ++
            [.infof "Updating node labels with Linode instance data: %v" [.data s]] }
        .assignNilMap ∧
      (UpdateNodeLabels w s).world.node.Labels = none) := by
  cases hl : w.node.Labels with
  | none =>
    rw [UpdateNodeLabels_of_none w s hl]
    simp [Outcome.isReturned, Outcome.world, hl]
  | some es =>
    rw [UpdateNodeLabels_of_some w s es hl]
    simp [Outcome.isReturned]

/-- Witness of C10: the call returns on the empty initialised map and panics on the
nil map, leaving it nil. -/
theorem UpdateNodeLabels_returns_iff_witness :
    (UpdateNodeLabels emptyWorld exampleSnapshot).isReturned = true ∧
    (UpdateNodeLabels nilWorld exampleSnapshot).isReturned = false ∧
    nilWorld.node.Labels = none ∧
    (UpdateNodeLabels nilWorld exampleSnapshot = .panicked
        { node := nilWorld.node,
          trace := nilWorld.trace ++
            [.infof "Updating node labels with Linode instance data: %v"
              [.data exampleSnapshot]] }
        .assignNilMap ∧
      (UpdateNodeLabels nilWorld exampleSnapshot).world.node.Labels = none) :=
  ⟨by decide, by decide, by decide,
    (UpdateNodeLabels_returns_iff nilWorld exampleSnapshot).2 (by decide)⟩

/-- C3, as stated, fails: applied to the empty initialised node, `UpdateNodeLabels`
issues no save to the cluster store, neither the first nor the second time, so the
saves in the trace are not the earlier saves followed by one save of the node. -/
theorem UpdateNodeLabels_persists_counterexample :
    saves (UpdateNodeLabels emptyWorld exampleSnapshot).world.trace = [] ∧
    saves (UpdateNodeLabels (UpdateNodeLabels emptyWorld exampleSnapshot).world
      exampleSnapshot).world.trace = [] ∧
    ¬ ∃ n, saves (UpdateNodeLabels emptyWorld exampleSnapshot).world.trace =
      saves emptyWorld.trace ++ [.nodesUpdate n] := by
  refine ⟨by decide, by decide, ?_⟩
  rintro ⟨n, hn⟩
  have h0 : saves (UpdateNodeLabels emptyWorld exampleSnapshot).world.trace = [] := by decide
  rw [h0] at hn
  simp [saves, emptyWorld] at hn

/-- C3, amended: an application of `UpdateNodeLabels` only mutates the label mapping
of the node object in memory: its one effect is the log line, it issues no save to
the cluster store, and applying a snapshot twice issues no save either time. -/
theorem UpdateNodeLabels_issues_no_save (w : World) (s : InstanceData) :
    (UpdateNodeLabels w s).world.trace =
      w.trace ++ [.infof "Updating node labels with Linode instance data: %v" [.data s]] ∧
    saves (UpdateNodeLabels w s).world.trace = saves w.trace ∧
    saves (UpdateNodeLabels (UpdateNodeLabels w s).world s).world.trace = saves w.trace := by
  have key : ∀ w' : World, (UpdateNodeLabels w' s).world.trace =
      w'.trace ++ [.infof "Updating node labels with Linode instance data: %v" [.data s]] := by
    intro w'
    cases hl : w'.node.Labels with
    | none => rw [UpdateNodeLabels_of_none w' s hl]; rfl
    | some es => rw [UpdateNodeLabels_of_some w' s es hl]; rfl
  refine ⟨key w, ?_, ?_⟩
  · rw [key w]
    simp [saves, Effect.isSave]
  · rw [key, key w]
    simp [saves, Effect.isSave]

/-! ## Properties of `GetCurrentNode` -/

/-- C6: `GetCurrentNode` fails exactly when the node name is absent or the store
lookup fails. With `NODE_NAME` empty or unset it returns an error and issues no store
query; otherwise it queries the store once, for that name, and returns the node of the
store when the lookup succeeds, an error wrapping the error of the store when it
fails. -/
theorem GetCurrentNode_spec (getenv : String → String)
    (nodesGet : String → Except GoError Node) (t : List Effect) :
    (getenv "NODE_NAME" = "" →
      (∃ e, (GetCurrentNode getenv nodesGet t).1 = .error e) ∧
      (GetCurrentNode getenv nodesGet t).2 = t ++ [.getenv "NODE_NAME"] ∧
      storeReads (GetCurrentNode getenv nodesGet t).2 = storeReads t) ∧
    (getenv "NODE_NAME" ≠ "" →
      (GetCurrentNode getenv nodesGet t).2 =
        t ++ [.getenv "NODE_NAME", .nodesGet (getenv "NODE_NAME")] ∧
      storeReads (GetCurrentNode getenv nodesGet t).2 =
        storeReads t ++ [.nodesGet (getenv "NODE_NAME")] ∧
      (∀ node, nodesGet (getenv "NODE_NAME") = .ok node →
        (GetCurrentNode getenv nodesGet t).1 = .ok node) ∧
      (∀ err, nodesGet (getenv "NODE_NAME") = .error err →
        ∃ e, (GetCurrentNode getenv nodesGet t).1 = .error e ∧ e.Unwrap = some err)) ∧
    ((∃ e, (GetCurrentNode getenv nodesGet t).1 = .error e) ↔
      (getenv "NODE_NAME" = "" ∨ ∃ err, nodesGet (getenv "NODE_NAME") = .error err)) := by
  by_cases hn : getenv "NODE_NAME" = ""
  · simp [GetCurrentNode, hn, storeReads]
  · cases hg : nodesGet (getenv "NODE_NAME") with
    | error err => simp [GetCurrentNode, hn, hg, storeReads, GoError.Unwrap]
    | ok node => simp [GetCurrentNode, hn, hg, storeReads]

/-- Witness of C6: with `NODE_NAME` unset no store query is issued and an error comes
back; with `NODE_NAME=node-1` the store is asked once and its node returned; with a
name the store does not know, the error of the store comes back wrapped. -/
theorem GetCurrentNode_spec_witness :
    ((GetCurrentNode unsetEnv healthyDeps.nodesGet []).1 =
        .error (.new "Environment variable POD_NAME is not set") ∧
      (GetCurrentNode unsetEnv healthyDeps.nodesGet []).2 = [.getenv "NODE_NAME"]) ∧
    (GetCurrentNode (fun _ => "node-9") healthyDeps.nodesGet []).1 =
      .error (.wrap "failed to get node: " (.new "not found")) ∧
    (unsetEnv "NODE_NAME" = "" ∧
      (∃ e, (GetCurrentNode unsetEnv healthyDeps.nodesGet []).1 = .error e) ∧
      (GetCurrentNode unsetEnv healthyDeps.nodesGet []).2 = [] ++ [.getenv "NODE_NAME"] ∧
      storeReads (GetCurrentNode unsetEnv healthyDeps.nodesGet []).2 = storeReads []) ∧
    (healthyDeps.getenv "NODE_NAME" ≠ "" ∧
      healthyDeps.nodesGet (healthyDeps.getenv "NODE_NAME") =
        .ok { Name := "node-1", Labels := some [] } ∧
      (GetCurrentNode healthyDeps.getenv healthyDeps.nodesGet []).1 =
        .ok { Name := "node-1", Labels := some [] }) :=
  ⟨⟨rfl, by decide⟩, rfl,
    ⟨by decide, (GetCurrentNode_spec unsetEnv healthyDeps.nodesGet []).1 (by decide)⟩,
    ⟨by decide, rfl,
      ((GetCurrentNode_spec healthyDeps.getenv healthyDeps.nodesGet []).2.1 (by decide)).2.2.1
        _ rfl⟩⟩

/-! ## Properties of `main` -/

theorem wrapSigned_of_range (x : Int) (hlo : -9223372036854775808 ≤ x)
    (hhi : x < 9223372036854775808) : wrapSigned 64 x = x := by
  unfold wrapSigned
  norm_num
  rw [Int.emod_eq_of_lt (by omega) (by omega)]
  omega

theorem pollInterval_of_range (n : Int) (hlo : -9223372036 ≤ n) (hhi : n ≤ 9223372036) :
    pollInterval n = n * 1000000000 := by
  unfold pollInterval Second
  rw [wrapSigned_of_range n (by omega) (by omega)]
  exact wrapSigned_of_range _ (by omega) (by omega)

/-- Start-up of `main` on the path where the configuration, the client set, the node
lookup and the metadata client succeed: the bootstrap fetch is handled, then the
watcher is constructed with the interval and started, unless the label update
panicked. -/
theorem mainStartup_of_success (d : Deps) (node : Node)
    (hcfg : d.inClusterConfig = none) (hcs : d.newForConfig = none)
    (hname : d.getenv "NODE_NAME" ≠ "")
    (hnode : d.nodesGet (d.getenv "NODE_NAME") = .ok node)
    (hcl : d.newClient = none) :
    mainStartup d =
      match (match d.getInstance.1 with
        | some data => UpdateNodeLabels { node := node, trace := bootstrapTrace d } data
        | none => .returned { node := node, trace := bootstrapTrace d }) with
      | .panicked w p => .panicked p w.trace
      | .returned w =>
        .running
          { world := { w with trace := w.trace ++
              [.newInstanceWatcher (pollInterval d.pollIntervalSeconds), .goStart] },
            instanceData := d.getInstance.1,
            interval := pollInterval d.pollIntervalSeconds } := by
  unfold mainStartup GetCurrentNode bootstrapTrace
  simp only [hcfg, hcs, hname, hnode, hcl, if_false]
  cases d.getInstance.2 <;> rfl

/-- When the start-up of `main` reaches the event loop, its interval is the one
computed from the flag, and the last two effects are the construction of the watcher
with that interval and the start of its goroutine. -/
theorem mainStartup_running_interval (d : Deps) (st : MainState)
    (h : mainStartup d = .running st) :
    st.interval = pollInterval d.pollIntervalSeconds ∧
    ∃ t, st.world.trace =
      t ++ [.newInstanceWatcher (pollInterval d.pollIntervalSeconds), .goStart] := by
  unfold mainStartup at h
  cases hcfg : d.inClusterConfig with
  | some e => simp [hcfg] at h
  | none =>
    cases hcs : d.newForConfig with
    | some e => simp [hcfg, hcs] at h
    | none =>
      simp only [hcfg, hcs] at h
      split at h
      · simp at h
      · cases hcl : d.newClient with
        | some e => simp [hcl] at h
        | none =>
          simp only [hcl] at h
          split at h
          · simp at h
          · injection h with h
            subst h
            exact ⟨rfl, _, rfl⟩

/-- C8, as stated, fails: 9223372037 is a positive number of seconds the flag accepts,
and the interval computed from it wraps around to a negative duration, which is what
the watcher is constructed with. -/
theorem pollInterval_overflow_counterexample :
    (0 : Int) < 9223372037 ∧ flagAccepts 9223372037 ∧
    pollInterval 9223372037 = -9223372036709551616 ∧
    ¬ (pollInterval 9223372037 = 9223372037 * 1000000000 ∧ 0 < pollInterval 9223372037) ∧
    ∃ st, mainStartup hugeIntervalDeps = .running st ∧
      st.interval = -9223372036709551616 ∧
      .newInstanceWatcher (-9223372036709551616) ∈ st.world.trace := by
  refine ⟨by decide, by decide, by decide, by decide, _, rfl, by decide, by decide⟩

/-- C8, amended: for every number of seconds `n` with `0 < n ≤ 9223372036` given to the
poll-interval flag, when the start-up of `main` reaches the watcher, the interval
handed to it is exactly `n * 10^9` nanoseconds, a positive duration without
wrap-around. -/
theorem pollInterval_exact (d : Deps) (st : MainState) (h : mainStartup d = .running st)
    (hpos : 0 < d.pollIntervalSeconds) (hmax : d.pollIntervalSeconds ≤ 9223372036) :
    st.interval = d.pollIntervalSeconds * 1000000000 ∧ 0 < st.interval ∧
    st.interval < 2 ^ 63 ∧
    .newInstanceWatcher (d.pollIntervalSeconds * 1000000000) ∈ st.world.trace := by
  obtain ⟨hi, t, ht⟩ := mainStartup_running_interval d st h
  have hp := pollInterval_of_range d.pollIntervalSeconds (by omega) hmax
  rw [hp] at hi ht
  refine ⟨hi, by omega, by omega, ?_⟩
  rw [ht]
  simp

/-- Witness of C8: with the default of 60 seconds the watcher is constructed with
60000000000 nanoseconds. -/
theorem pollInterval_exact_witness :
    pollInterval 60 = 60 * Second ∧
    ∃ st, mainStartup healthyDeps = .running st ∧
      st.interval = 60000000000 ∧
      (st.interval = healthyDeps.pollIntervalSeconds * 1000000000 ∧ 0 < st.interval ∧
        st.interval < 2 ^ 63 ∧
        .newInstanceWatcher (healthyDeps.pollIntervalSeconds * 1000000000) ∈ st.world.trace) :=
  ⟨by decide, _, rfl, by decide,
    pollInterval_exact healthyDeps _ rfl (by decide) (by decide)⟩

/-- Start-up of `main` on the path where the configuration, the client set, the node
lookup and the metadata client succeed and the label map of the node is initialised,
for every poll-interval value: the bootstrap synchronization is performed (the labels
of a fetched snapshot are applied), afterwards the watcher is constructed with the
interval computed from the flag and its goroutine started. -/
theorem mainStartup_bootstrap_then_watcher (d : Deps) (node : Node) (es : Entries)
    (hcfg : d.inClusterConfig = none) (hcs : d.newForConfig = none)
    (hname : d.getenv "NODE_NAME" ≠ "")
    (hnode : d.nodesGet (d.getenv "NODE_NAME") = .ok node)
    (hcl : d.newClient = none) (hlabels : node.Labels = some es) :
    mainStartup d = .running
      { world :=
          { node :=
              { Name := node.Name,
                Labels :=
                  match d.getInstance.1 with
                  | some data => some (schemaEntries es data)
                  | none => some es },
            trace :=
              bootstrapTrace d ++
              (match d.getInstance.1 with
                | some data =>
                  [.infof "Updating node labels with Linode instance data: %v" [.data data]]
                | none => []) ++
              [.newInstanceWatcher (pollInterval d.pollIntervalSeconds), .goStart] },
        instanceData := d.getInstance.1,
        interval := pollInterval d.pollIntervalSeconds } := by
  rw [mainStartup_of_success d node hcfg hcs hname hnode hcl]
  obtain ⟨name, labels⟩ := node
  simp only at hlabels
  subst hlabels
  cases hdata : d.getInstance.1 with
  | none => simp
  | some data =>
    simp only []
    rw [UpdateNodeLabels_of_some _ data es rfl]

/-- C7, as stated, fails. With `-poll-interval=0` and collaborators that succeed,
`main` does not fail before the bootstrap: it fetches the instance data and applies
the labels to the node, and only then constructs the watcher with the zero interval;
the process is aborted by the watcher, after the bootstrap. With
`-poll-interval=-9223372037`, also non-positive and accepted by the flag, the
computed interval wraps around to a positive duration and start-up does not fail at
all. -/
theorem main_rejects_nonpositive_interval_counterexample :
    (zeroIntervalDeps.pollIntervalSeconds ≤ 0 ∧
      ∃ st, mainStartup zeroIntervalDeps = .running st ∧
        st.world.node.Labels =
          some [("linode_label", "my-node"), ("linode_id", "123"), ("linode_region", "us-east"),
            ("linode_type", "g6-standard-2"), ("linode_host", "abc")] ∧
        st.world.trace =
          [.infof "Starting Linode Kubernetes Node Decorator: version %s" [.str "v0"],
           .infof "The poll interval is set to %v seconds" [.duration 0],
           .inClusterConfig, .newForConfig, .getenv "NODE_NAME", .nodesGet "node-1",
           .newClient, .getInstance,
           .infof "Updating node labels with Linode instance data: %v" [.data exampleSnapshot],
           .newInstanceWatcher 0, .goStart] ∧
        processStartup zeroIntervalDeps = .panicked .nonPositiveInterval st.world.trace) ∧
    (wrappedIntervalDeps.pollIntervalSeconds ≤ 0 ∧
      flagAccepts wrappedIntervalDeps.pollIntervalSeconds ∧
      ∃ st, processStartup wrappedIntervalDeps = .running st ∧
        st.interval = 9223372036709551616) := by
  refine ⟨⟨by decide, _, rfl, by decide, by decide, by decide⟩,
    by decide, by decide, _, rfl, by decide⟩

/-- C7, amended: a non-positive polling interval is rejected, but only after the
bootstrap synchronization. For every poll-interval value `n` with
`-9223372036 ≤ n ≤ 0`, when the configuration, the client set, the node lookup and the
metadata client succeed and the label map of the node is initialised: `main` itself
does not check the value and performs the bootstrap synchronization (the labels of a
fetched snapshot are applied); afterwards it constructs the watcher with the interval
of `n * 10^9` nanoseconds, which is non-positive, and the launch of the watcher fails
as a configuration error before its polling loop starts, aborting the process. -/
theorem main_rejects_nonpositive_interval_after_bootstrap (d : Deps) (node : Node)
    (es : Entries)
    (hpoll : d.pollIntervalSeconds ≤ 0) (hlow : -9223372036 ≤ d.pollIntervalSeconds)
    (hcfg : d.inClusterConfig = none) (hcs : d.newForConfig = none)
    (hname : d.getenv "NODE_NAME" ≠ "")
    (hnode : d.nodesGet (d.getenv "NODE_NAME") = .ok node)
    (hcl : d.newClient = none) (hlabels : node.Labels = some es) :
    ∃ st, mainStartup d = .running st ∧
      st.interval = d.pollIntervalSeconds * 1000000000 ∧ st.interval ≤ 0 ∧
      st.world.node.Labels =
        (match d.getInstance.1 with
          | some data => some (schemaEntries es data)
          | none => some es) ∧
      st.world.trace =
        bootstrapTrace d ++
        (match d.getInstance.1 with
          | some data =>
            [.infof "Updating node labels with Linode instance data: %v" [.data data]]
          | none => []) ++
        [.newInstanceWatcher (d.pollIntervalSeconds * 1000000000), .goStart] ∧
      watcherLaunch st.interval = .error .nonPositiveInterval ∧
      processStartup d = .panicked .nonPositiveInterval st.world.trace := by
  have hmain := mainStartup_bootstrap_then_watcher d node es hcfg hcs hname hnode hcl hlabels
  have hp := pollInterval_of_range d.pollIntervalSeconds hlow (by omega)
  have hle : d.pollIntervalSeconds * 1000000000 ≤ 0 := by omega
  rw [hp] at hmain
  refine ⟨_, hmain, rfl, hle, rfl, rfl, ?_, ?_⟩
  · simp [watcherLaunch, hle]
  · simp [processStartup, hmain, watcherLaunch, hle]

/-- Witness of C7 (amended): the start-up with `-poll-interval=0`. -/
theorem main_rejects_nonpositive_interval_after_bootstrap_witness :
    zeroIntervalDeps.pollIntervalSeconds ≤ 0 ∧
    -9223372036 ≤ zeroIntervalDeps.pollIntervalSeconds ∧
    ∃ st, mainStartup zeroIntervalDeps = .running st ∧
      st.interval = zeroIntervalDeps.pollIntervalSeconds * 1000000000 ∧ st.interval ≤ 0 ∧
      st.world.node.Labels =
        (match zeroIntervalDeps.getInstance.1 with
          | some data => some (schemaEntries [] data)
          | none => some []) ∧
      st.world.trace =
        bootstrapTrace zeroIntervalDeps ++
        (match zeroIntervalDeps.getInstance.1 with
          | some data =>
            [.infof "Updating node labels with Linode instance data: %v" [.data data]]
          | none => []) ++
        [.newInstanceWatcher (zeroIntervalDeps.pollIntervalSeconds * 1000000000), .goStart] ∧
      watcherLaunch st.interval = .error .nonPositiveInterval ∧
      processStartup zeroIntervalDeps = .panicked .nonPositiveInterval st.world.trace :=
  ⟨by decide, by decide,
    main_rejects_nonpositive_interval_after_bootstrap zeroIntervalDeps
      { Name := "node-1", Labels := some [] } [] (by decide) (by decide)
      rfl rfl (by decide) rfl rfl rfl⟩

/-- C4 fails on the code after a failed bootstrap fetch: start-up with a bootstrap
fetch that returns no data and an error reaches the loop with `instanceData` nil; a
snapshot then received on `Updates` is not applied, the labels of the node stay as
they were (empty), while `UpdateNodeLabels` applied to that snapshot would set the
five labels. After a successful bootstrap the same event is applied. -/
theorem loopIteration_skips_update_after_failed_bootstrap :
    (∃ st, mainStartup failedBootstrapDeps = .running st ∧ st.instanceData = none ∧
      st.world.node.Labels = some [] ∧
      (loopIteration st (.update (some exampleSnapshot))).state.world.node.Labels = some [] ∧
      (loopIteration st (.update (some exampleSnapshot))).state.world.trace =
        st.world.trace ++ [.infof "For loop?" []] ∧
      (UpdateNodeLabels st.world exampleSnapshot).world.node.Labels =
        some [("linode_label", "my-node"), ("linode_id", "123"), ("linode_region", "us-east"),
          ("linode_type", "g6-standard-2"), ("linode_host", "abc")]) ∧
    (∃ st, mainStartup healthyDeps = .running st ∧
      (loopIteration st (.update (some { exampleSnapshot with Region := "eu-west" }))).state.world.node.Labels =
        (UpdateNodeLabels st.world { exampleSnapshot with Region := "eu-west" }).world.node.Labels) := by
  refine ⟨⟨_, rfl, by decide, by decide, by decide, by decide, by decide⟩, _, rfl, by decide⟩

/-! ## Properties of the instance watcher -/

theorem watcherTick_last (st : WatcherState) (r : Except GoError InstanceData) :
    (watcherTick st r).1.lastKnownGood =
      match r with
      | .ok s => some s
      | .error _ => st.lastKnownGood := by
  cases r with
  | error err => rfl
  | ok s =>
    by_cases h : st.lastKnownGood = some s
    · simp [watcherTick, h]
    · simp [watcherTick, h]

theorem watcherTick_emits (st : WatcherState) (r : Except GoError InstanceData) :
    emitsData (watcherTick st r).2 = true ↔ ∃ s, r = .ok s ∧ st.lastKnownGood ≠ some s := by
  cases r with
  | error err => simp [watcherTick, emitsData]
  | ok s =>
    by_cases h : st.lastKnownGood = some s
    · simp [watcherTick, emitsData, h]
    · simp [watcherTick, emitsData, h]

theorem watcherRun_cons (st : WatcherState) (r : Except GoError InstanceData)
    (rs : List (Except GoError InstanceData)) :
    watcherRun st (r :: rs) =
      ((watcherRun (watcherTick st r).1 rs).1,
        (watcherTick st r).2 :: (watcherRun (watcherTick st r).1 rs).2) := rfl

theorem watcherRun_last (rs : List (Except GoError InstanceData)) (st : WatcherState) :
    (watcherRun st rs).1.lastKnownGood =
      match lastSuccess rs with
      | some s => some s
      | none => st.lastKnownGood := by
  induction rs generalizing st with
  | nil => rfl
  | cons r rs ih =>
    rw [watcherRun_cons]
    simp only [ih, lastSuccess]
    cases hl : lastSuccess rs with
    | some s => rfl
    | none =>
      simp only [watcherTick_last]
      cases r <;> rfl

theorem watcherRun_length (rs : List (Except GoError InstanceData)) (st : WatcherState) :
    (watcherRun st rs).2.length = rs.length := by
  induction rs generalizing st with
  | nil => rfl
  | cons r rs ih => rw [watcherRun_cons]; simp [ih]

theorem watcherRun_getElem (pre post : List (Except GoError InstanceData))
    (r : Except GoError InstanceData) (st : WatcherState) :
    (watcherRun st (pre ++ r :: post)).2[pre.length]? =
      some (watcherTick (watcherRun st pre).1 r).2 := by
  induction pre generalizing st with
  | nil => simp [watcherRun_cons, watcherRun]
  | cons p pre ih =>
    rw [List.cons_append, watcherRun_cons, watcherRun_cons]
    simp [ih]

/-- C9: for every finite sequence of fetch results fed to a fresh watcher, the tick
that handles a result `r` after the results `pre` pushes a Data event iff `r` is a
snapshot that differs from the most recent successfully fetched snapshot of `pre`
(failures in `pre` are skipped: the baseline of the watcher after `pre` is exactly
that snapshot); the event then carries the new snapshot, and a first successful
fetch always emits. Each result gets one tick. -/
theorem watcher_emits_iff (pre post : List (Except GoError InstanceData))
    (r : Except GoError InstanceData) :
    (watcherRun .init pre).1.lastKnownGood = lastSuccess pre ∧
    (watcherRun .init (pre ++ r :: post)).2.length = (pre ++ r :: post).length ∧
    ∃ evs, (watcherRun .init (pre ++ r :: post)).2[pre.length]? = some evs ∧
      (emitsData evs = true ↔ ∃ s, r = .ok s ∧ lastSuccess pre ≠ some s) ∧
      (∀ s, r = .ok s → lastSuccess pre ≠ some s → evs = [.Data s]) ∧
      (∀ s, r = .ok s → lastSuccess pre = none → emitsData evs = true) := by
  have hbase : (watcherRun .init pre).1.lastKnownGood = lastSuccess pre := by
    rw [watcherRun_last]
    cases lastSuccess pre <;> rfl
  refine ⟨hbase, watcherRun_length _ _, _, watcherRun_getElem pre post r .init, ?_, ?_, ?_⟩
  · rw [watcherTick_emits, hbase]
  · intro s hr hne
    subst hr
    rw [← hbase] at hne
    simp [watcherTick, hne]
  · intro s hr hnone
    rw [watcherTick_emits, hbase]
    exact ⟨s, hr, by simp [hnone]⟩

/-- Witness of C9: with the same snapshot on ticks 1 to 3 and a changed region on
tick 4, Data events are pushed on tick 1 (first successful fetch) and on tick 4 only;
with a failure on tick 2 between identical snapshots, only tick 1 pushes a Data event
and tick 2 pushes a Fault. -/
theorem watcher_emits_iff_witness :
    (watcherRun .init (scenarioSame ++ scenarioChange :: [])).2.map emitsData =
      [true, false, false, true] ∧
    (watcherRun .init faultyFetches).2 =
      [[.Data exampleSnapshot], [.Fault (.new "timeout")], [], []] ∧
    lastSuccess scenarioSame ≠ some { exampleSnapshot with Region := "eu-west" } ∧
    ((watcherRun .init scenarioSame).1.lastKnownGood = lastSuccess scenarioSame ∧
      (watcherRun .init (scenarioSame ++ scenarioChange :: [])).2.length =
        (scenarioSame ++ scenarioChange :: []).length ∧
      ∃ evs, (watcherRun .init (scenarioSame ++ scenarioChange :: [])).2[scenarioSame.length]?
          = some evs ∧
        (emitsData evs = true ↔ ∃ s, scenarioChange = .ok s ∧ lastSuccess scenarioSame ≠ some s) ∧
        (∀ s, scenarioChange = .ok s → lastSuccess scenarioSame ≠ some s → evs = [.Data s]) ∧
        (∀ s, scenarioChange = .ok s → lastSuccess scenarioSame = none →
          emitsData evs = true)) :=
  ⟨by decide, by decide, by decide, watcher_emits_iff scenarioSame [] scenarioChange⟩

end NodeDecorator
